import Mathlib

/-!
Shallow embedding of the `mypandadiary` entry store and its client-side
reconciliation protocol.

The server keeps one SQLite table `diary_entries` with a uniqueness
constraint over `(date, device_id)` (see `createEntriesTable` in the
backend setup script).  The model layer `DiaryEntry` issues plain SQL
statements through `runQuery` / `getRow` / `getAll`
(`backend/models/DiaryEntry.js`), and the Express routes in
`backend/routes/entries.js` validate inputs with a `YYYY-MM-DD` regex
before calling into the model.  A device-id middleware
(`backend/middleware/deviceId.js`) picks the partition key from the
`X-Device-ID` header or the `deviceId` query parameter, mints a fresh
UUID when both are absent, and rejects malformed ids with a 400.

The client keeps a per-date mirror of entry content in `localStorage`
under `diary_<date>` keys and, on the `online` event, runs
`syncWithServer`, whose loop calls `api.upsertEntry` for every cached
entry, recording per-item success/failure.  In that front-end script the
`api` object defines no `upsertEntry` member (only `request`,
`getEntry`, `saveEntry`, `deleteEntry` and `getAllEntries`), so each
per-item call throws a TypeError that the loop's catch swallows: no
request is issued and the store is never written by the pass.

Strings are compared with byte-wise lexicographic order, matching
SQLite's BINARY collation on `TEXT` columns; timestamps
(`CURRENT_TIMESTAMP`) are modelled as an explicit `Nat` clock passed
into each mutating operation.
-/

namespace PandaDiary

/-! ### String order (SQLite BINARY collation on TEXT) -/

/-- Lexicographic `≤` on character lists, comparing code points.  This is
the order SQLite's BINARY collation induces on the ASCII date strings the
application stores. -/
def charListLe : List Char → List Char → Bool
  | [], _ => true
  | _ :: _, [] => false
  | a :: as, b :: bs =>
    if a.toNat < b.toNat then true
    else if b.toNat < a.toNat then false
    else charListLe as bs

/-- Byte-wise lexicographic `≤` on strings. -/
def strLe (a b : String) : Bool := charListLe a.data b.data

theorem charListLe_refl (l : List Char) : charListLe l l = true := by
  induction l with
  | nil => rfl
  | cons a as ih => simp [charListLe, ih]

theorem charListLe_cons_iff (a b : Char) (as bs : List Char) :
    charListLe (a :: as) (b :: bs) = true ↔
      a.toNat < b.toNat ∨ (a.toNat = b.toNat ∧ charListLe as bs = true) := by
  rcases Nat.lt_trichotomy a.toNat b.toNat with h | h | h
  · simp [charListLe, h]
  · have h1 : ¬ a.toNat < b.toNat := by omega
    have h2 : ¬ b.toNat < a.toNat := by omega
    simp [charListLe, h1, h2, h]
  · have h1 : ¬ a.toNat < b.toNat := by omega
    have h2 : a.toNat ≠ b.toNat := by omega
    simp [charListLe, h1, h, h2]

theorem charListLe_total (as bs : List Char) :
    charListLe as bs = true ∨ charListLe bs as = true := by
  induction as generalizing bs with
  | nil => left; rfl
  | cons a as ih =>
    cases bs with
    | nil => right; rfl
    | cons b bs' =>
      rcases Nat.lt_trichotomy a.toNat b.toNat with h | h | h
      · left; simp [charListLe, h]
      · rcases ih bs' with h1 | h1
        · left; exact (charListLe_cons_iff a b as bs').mpr (Or.inr ⟨h, h1⟩)
        · right; exact (charListLe_cons_iff b a bs' as).mpr (Or.inr ⟨h.symm, h1⟩)
      · right; simp [charListLe, h]

theorem charListLe_trans (as bs cs : List Char)
    (h1 : charListLe as bs = true) (h2 : charListLe bs cs = true) :
    charListLe as cs = true := by
  induction as generalizing bs cs with
  | nil => rfl
  | cons a as ih =>
    cases bs with
    | nil => simp [charListLe] at h1
    | cons b bs' =>
      cases cs with
      | nil => simp [charListLe] at h2
      | cons c cs' =>
        rcases (charListLe_cons_iff a b as bs').mp h1 with hab | ⟨hab, h1'⟩ <;>
          rcases (charListLe_cons_iff b c bs' cs').mp h2 with hbc | ⟨hbc, h2'⟩
        · exact (charListLe_cons_iff a c as cs').mpr (Or.inl (by omega))
        · exact (charListLe_cons_iff a c as cs').mpr (Or.inl (by omega))
        · exact (charListLe_cons_iff a c as cs').mpr (Or.inl (by omega))
        · exact (charListLe_cons_iff a c as cs').mpr
            (Or.inr ⟨by omega, ih bs' cs' h1' h2'⟩)

theorem strLe_refl (a : String) : strLe a a = true := charListLe_refl a.data

theorem strLe_total (a b : String) : strLe a b = true ∨ strLe b a = true :=
  charListLe_total a.data b.data

theorem strLe_trans (a b c : String)
    (h1 : strLe a b = true) (h2 : strLe b c = true) : strLe a c = true :=
  charListLe_trans a.data b.data c.data h1 h2

/-! ### Input validation patterns -/

/-- The routes' date check, the regex `^\d{4}-\d{2}-\d{2}$` from
`backend/routes/entries.js`: four digits, a dash, two digits, a dash,
two digits.  Note this is a shape check only; it accepts strings such as
`"2024-13-40"` that are not calendar dates. -/
def dateRegexTest (s : String) : Bool :=
  match s.data with
  | [y1, y2, y3, y4, '-', m1, m2, '-', d1, d2] =>
    y1.isDigit && y2.isDigit && y3.isDigit && y4.isDigit &&
      m1.isDigit && m2.isDigit && d1.isDigit && d2.isDigit
  | _ => false

theorem dateRegexTest_ne_empty (s : String) (h : dateRegexTest s = true) :
    s ≠ "" := by
  intro he
  rw [he] at h
  exact absurd h (by decide)

/-- Hexadecimal digit, both cases (the middleware regex carries the `i`
flag). -/
def isHexChar (c : Char) : Bool :=
  c.isDigit || (Nat.ble 97 c.toNat && Nat.ble c.toNat 102) ||
    (Nat.ble 65 c.toNat && Nat.ble c.toNat 70)

/-- The device-id check from `backend/middleware/deviceId.js`, the regex
`^[0-9a-f]{8}-[0-9a-f]{4}-[1-5][0-9a-f]{3}-[89ab][0-9a-f]{3}-[0-9a-f]{12}$`
with the case-insensitive flag. -/
def uuidRegexTest (s : String) : Bool :=
  match s.data with
  | a1 :: a2 :: a3 :: a4 :: a5 :: a6 :: a7 :: a8 :: '-' ::
    b1 :: b2 :: b3 :: b4 :: '-' ::
    v :: c2 :: c3 :: c4 :: '-' ::
    w :: d2 :: d3 :: d4 :: '-' ::
    e1 :: e2 :: e3 :: e4 :: e5 :: e6 :: e7 :: e8 :: e9 :: e10 :: e11 :: e12 :: [] =>
    [a1, a2, a3, a4, a5, a6, a7, a8].all isHexChar &&
      [b1, b2, b3, b4].all isHexChar &&
      (Nat.ble 49 v.toNat && Nat.ble v.toNat 53) &&
      [c2, c3, c4].all isHexChar &&
      (w == '8' || w == '9' || w == 'a' || w == 'A' || w == 'b' || w == 'B') &&
      [d2, d3, d4].all isHexChar &&
      [e1, e2, e3, e4, e5, e6, e7, e8, e9, e10, e11, e12].all isHexChar
  | _ => false

/-! ### The `diary_entries` table -/

/-- One row of `diary_entries`: surrogate id, date, content, device id,
and the two timestamps. -/
structure Row where
  id : Nat
  date : String
  content : String
  device_id : String
  created_at : Nat
  updated_at : Nat
deriving DecidableEq, Repr

/-- Table state: the rows in insertion order plus the AUTOINCREMENT
counter. -/
structure DB where
  rows : List Row
  nextId : Nat
deriving DecidableEq, Repr

def dbEmpty : DB := ⟨[], 1⟩

/-- The `WHERE date = ? AND device_id = ?` condition. -/
def rowMatches (date dev : String) (r : Row) : Bool :=
  r.date == date && r.device_id == dev

/-- Insert into a list sorted descending by a string key. -/
def insertDescBy {α : Type} (key : α → String) (x : α) : List α → List α
  | [] => [x]
  | y :: ys => if strLe (key y) (key x) then x :: y :: ys else y :: insertDescBy key x ys

/-- `ORDER BY <key> DESC` (insertion sort; the order relation is SQLite's
BINARY collation, `strLe`). -/
def sortDescBy {α : Type} (key : α → String) : List α → List α
  | [] => []
  | x :: xs => insertDescBy key x (sortDescBy key xs)

/-! ### The `DiaryEntry` model layer (`backend/models/DiaryEntry.js`) -/

/-- `DiaryEntry.getEntryByDate`: `SELECT * FROM diary_entries WHERE
date = ? AND device_id = ?` through `getRow`, which yields the first
matching row or nothing. -/
def getEntryByDate (date dev : String) (db : DB) : Option Row :=
  (db.rows.filter (rowMatches date dev)).head?

/-- `DiaryEntry.getAllEntries`: `SELECT * ... WHERE device_id = ?
ORDER BY date DESC`. -/
def getAllEntries (dev : String) (db : DB) : List Row :=
  sortDescBy Row.date (db.rows.filter (fun r => r.device_id == dev))

/-- `DiaryEntry.createEntry`: `INSERT INTO diary_entries ...` with
`CURRENT_TIMESTAMP` for both timestamps.  The `UNIQUE(date, device_id)`
constraint makes the insert fail when a row for the key already
exists. -/
def createEntry (date content dev : String) (now : Nat) (db : DB) :
    Except String (DB × Row) :=
  if db.rows.any (rowMatches date dev) then
    .error "UNIQUE constraint failed: diary_entries.date, diary_entries.device_id"
  else
    let r : Row := ⟨db.nextId, date, content, dev, now, now⟩
    .ok (⟨db.rows ++ [r], db.nextId + 1⟩, r)

/-- `DiaryEntry.updateEntry`: `UPDATE diary_entries SET content = ?,
updated_at = CURRENT_TIMESTAMP WHERE date = ? AND device_id = ?`;
returns the new table and the number of changed rows. -/
def updateEntry (date content dev : String) (now : Nat) (db : DB) : DB × Nat :=
  (⟨db.rows.map (fun r =>
      if rowMatches date dev r then
        { r with content := content, updated_at := now }
      else r),
    db.nextId⟩,
   (db.rows.filter (rowMatches date dev)).length)

/-- `DiaryEntry.upsertEntry`: read the row for the key, then update it
when present and insert otherwise (the check-then-write pair from the
source). -/
def upsertEntry (date content dev : String) (now : Nat) (db : DB) :
    Except String DB :=
  match getEntryByDate date dev db with
  | some _ => .ok (updateEntry date content dev now db).1
  | none => (createEntry date content dev now db).map Prod.fst

/-- `DiaryEntry.deleteEntry`: `DELETE FROM diary_entries WHERE date = ?
AND device_id = ?`; returns the new table and the number of deleted
rows. -/
def deleteEntry (date dev : String) (db : DB) : DB × Nat :=
  (⟨db.rows.filter (fun r => !(rowMatches date dev r)), db.nextId⟩,
   (db.rows.filter (rowMatches date dev)).length)

/-- `DiaryEntry.getEntriesInRange`: `SELECT * ... WHERE date BETWEEN ?
AND ? AND device_id = ? ORDER BY date DESC`. -/
def getEntriesInRange (startDate endDate dev : String) (db : DB) : List Row :=
  sortDescBy Row.date (db.rows.filter (fun r =>
    (strLe startDate r.date && strLe r.date endDate) && r.device_id == dev))

/-- Rows of one partition, in table order. -/
def entriesOf (dev : String) (db : DB) : List Row :=
  db.rows.filter (fun r => r.device_id == dev)

/-- Forget the `updated_at` column (the only column a repeated upsert of
the same content can change). -/
def stripUpdatedAt (db : DB) : DB :=
  ⟨db.rows.map (fun r => { r with updated_at := 0 }), db.nextId⟩

/-! ### The Express routes (`backend/routes/entries.js`)

Each handler is a function from the request data and the table to an
HTTP status, the new table, and the number of SQL statements executed
(`accesses` counts the calls into the persistence layer, so that
"the store is never reached" is expressible as `accesses = 0`). -/

structure RouteOut where
  status : Nat
  db : DB
  accesses : Nat
  body : Option Row := none
  items : List Row := []
deriving DecidableEq, Repr

/-- `GET /api/entries`. -/
def listEntriesRoute (dev : String) (db : DB) : RouteOut :=
  { status := 200, db := db, accesses := 1, items := getAllEntries dev db }

/-- `GET /api/entries/:date`: regex check, then 404 when no row exists,
else 200 with the row. -/
def getEntryRoute (date dev : String) (db : DB) : RouteOut :=
  if !dateRegexTest date then { status := 400, db := db, accesses := 0 }
  else
    match getEntryByDate date dev db with
    | none => { status := 404, db := db, accesses := 1 }
    | some e => { status := 200, db := db, accesses := 1, body := some e }

/-- `POST /api/entries`: required-field check (`!date || !content`, an
empty string modelling a missing or empty field), regex check, 409 when
a row exists, else insert.  -/
def postEntryRoute (date content dev : String) (now : Nat) (db : DB) : RouteOut :=
  if date == "" || content == "" then { status := 400, db := db, accesses := 0 }
  else if !dateRegexTest date then { status := 400, db := db, accesses := 0 }
  else
    match getEntryByDate date dev db with
    | some _ => { status := 409, db := db, accesses := 1 }
    | none =>
      match createEntry date content dev now db with
      | .ok (db', r) => { status := 201, db := db', accesses := 2, body := some r }
      | .error _ => { status := 500, db := db, accesses := 2 }

/-- `PUT /api/entries/:date`: content check, regex check, 404 when no
row exists, else update. -/
def putEntryRoute (date content dev : String) (now : Nat) (db : DB) : RouteOut :=
  if content == "" then { status := 400, db := db, accesses := 0 }
  else if !dateRegexTest date then { status := 400, db := db, accesses := 0 }
  else
    match getEntryByDate date dev db with
    | none => { status := 404, db := db, accesses := 1 }
    | some _ => { status := 200, db := (updateEntry date content dev now db).1, accesses := 2 }

/-- `PATCH /api/entries/:date`: content check, regex check, then
`DiaryEntry.upsertEntry`. -/
def patchEntryRoute (date content dev : String) (now : Nat) (db : DB) : RouteOut :=
  if content == "" then { status := 400, db := db, accesses := 0 }
  else if !dateRegexTest date then { status := 400, db := db, accesses := 0 }
  else
    match upsertEntry date content dev now db with
    | .ok db' => { status := 200, db := db', accesses := 2 }
    | .error _ => { status := 500, db := db, accesses := 2 }

/-- `DELETE /api/entries/:date`: regex check, 404 when no row exists,
else delete. -/
def deleteEntryRoute (date dev : String) (db : DB) : RouteOut :=
  if !dateRegexTest date then { status := 400, db := db, accesses := 0 }
  else
    match getEntryByDate date dev db with
    | none => { status := 404, db := db, accesses := 1 }
    | some _ => { status := 200, db := (deleteEntry date dev db).1, accesses := 2 }

/-- `GET /api/entries/range/:startDate/:endDate`: regex check on both
dates, then `DiaryEntry.getEntriesInRange`.  The source performs no
start/end comparison. -/
def rangeEntriesRoute (startDate endDate dev : String) (db : DB) : RouteOut :=
  if !(dateRegexTest startDate && dateRegexTest endDate) then
    { status := 400, db := db, accesses := 0 }
  else
    { status := 200, db := db, accesses := 1,
      items := getEntriesInRange startDate endDate dev db }

/-! ### Device-id middleware (`backend/middleware/deviceId.js`) -/

structure MWResult where
  deviceId : String
  minted : Bool
deriving DecidableEq, Repr

/-- JavaScript truthiness of a possibly-absent string: `undefined` and
`""` are falsy. -/
def jsTruthy : Option String → Bool
  | none => false
  | some s => !(s == "")

/-- `deviceIdMiddleware`: `req.headers['x-device-id'] ||
req.query.deviceId`, minting a fresh UUID when the result is falsy. -/
def deviceIdMiddleware (headerId queryId : Option String) (freshUuid : String) :
    MWResult :=
  if jsTruthy headerId then { deviceId := headerId.getD "", minted := false }
  else if jsTruthy queryId then { deviceId := queryId.getD "", minted := false }
  else { deviceId := freshUuid, minted := true }

/-- The logical entry operations the router exposes. -/
inductive EntryOp where
  | listAll : EntryOp
  | getByDate : String → EntryOp
  | create : String → String → EntryOp
  | replace : String → String → EntryOp
  | upsert : String → String → EntryOp
  | remove : String → EntryOp
  | range : String → String → EntryOp
deriving DecidableEq, Repr

def dispatchOp (op : EntryOp) (dev : String) (now : Nat) (db : DB) : RouteOut :=
  match op with
  | .listAll => listEntriesRoute dev db
  | .getByDate d => getEntryRoute d dev db
  | .create d c => postEntryRoute d c dev now db
  | .replace d c => putEntryRoute d c dev now db
  | .upsert d c => patchEntryRoute d c dev now db
  | .remove d => deleteEntryRoute d dev db
  | .range s e => rangeEntriesRoute s e dev db

/-- The full request pipeline of `routes/entries.js`:
`deviceIdMiddleware`, then `validateDeviceId` (which rejects a malformed
id with 400 before any handler runs), then the route handler. -/
def handleRequest (headerId queryId : Option String) (freshUuid : String)
    (op : EntryOp) (now : Nat) (db : DB) : MWResult × RouteOut :=
  let mw := deviceIdMiddleware headerId queryId freshUuid
  if !uuidRegexTest mw.deviceId then
    (mw, { status := 400, db := db, accesses := 0 })
  else
    (mw, dispatchOp op mw.deviceId now db)

/-! ### The client local cache and reconciliation pass -/

/-- One locally cached dated entry as `getLocalEntries` builds it. -/
structure LocalEntry where
  date : String
  content : String
  externalMusic : Option String
deriving DecidableEq, Repr

/-- `key.startsWith(pre)` on character lists. -/
def charsStartWith : List Char → List Char → Bool
  | [], _ => true
  | _ :: _, [] => false
  | p :: ps, c :: cs => p == c && charsStartWith ps cs

/-- `getLocalEntries`: scan every `localStorage` key, keep the
`diary_<date>` slots, pair each with its `external_music_<date>` slot,
and sort descending by date.  `storage` is the `localStorage` key/value
list. -/
def getLocalEntries (storage : List (String × String)) : List LocalEntry :=
  sortDescBy LocalEntry.date
    (storage.filterMap (fun kv =>
      if charsStartWith "diary_".data kv.1.data then
        let date := String.mk (kv.1.data.drop 6)
        some { date := date, content := kv.2,
               externalMusic := storage.lookup ("external_music_" ++ date) }
      else none))

/-- The replay loop inside `syncWithServer`: for each cached entry it
runs `await api.upsertEntry(entry.date, entry.content)` inside a
per-item try/catch.  That file's `api` object has no `upsertEntry`
member (it defines `request`, `getEntry`, `saveEntry`, `deleteEntry` and
`getAllEntries` only), so the call throws a TypeError before any request
is issued; the catch logs the failure and the loop continues.  Hence
every iteration records a failure and the store is never touched. -/
def syncEntries : List LocalEntry → DB → DB × List (String × Bool)
  | [], db => (db, [])
  | e :: rest, db =>
    let (db', results) := syncEntries rest db
    (db', (e.date, false) :: results)

/-- `syncWithServer`: enumerate `getLocalEntries()` and attempt the
per-item upsert call on each; see `syncEntries` for why every attempt
fails in this source. -/
def syncWithServer (storage : List (String × String)) (db : DB) :
    DB × List (String × Bool) :=
  syncEntries (getLocalEntries storage) db

/-- The `script.js` variant of `syncWithServer`: a stub that only shows
a notification and performs no store writes. -/
def syncWithServerMain (db : DB) : DB × List (String × Bool) := (db, [])

/-! ### Basic lemmas about the table operations -/

theorem rowMatches_iff (date dev : String) (r : Row) :
    rowMatches date dev r = true ↔ r.date = date ∧ r.device_id = dev := by
  simp [rowMatches]

theorem getEntryByDate_eq_none_iff (d dev : String) (db : DB) :
    getEntryByDate d dev db = none ↔ db.rows.filter (rowMatches d dev) = [] := by
  simp [getEntryByDate, List.head?_eq_none_iff]

theorem any_eq_false_of_getEntryByDate_none (d dev : String) (db : DB)
    (h : getEntryByDate d dev db = none) :
    db.rows.any (rowMatches d dev) = false := by
  rw [getEntryByDate_eq_none_iff] at h
  exact List.any_eq_false.mpr (fun r hr => List.filter_eq_nil_iff.mp h r hr)

theorem not_rowMatches_of_getEntryByDate_none (d dev : String) (db : DB)
    (h : getEntryByDate d dev db = none) :
    ∀ r ∈ db.rows, rowMatches d dev r = false := by
  rw [getEntryByDate_eq_none_iff] at h
  intro r hr
  exact Bool.eq_false_iff.mpr (List.filter_eq_nil_iff.mp h r hr)

theorem getEntryByDate_some_mem (d dev : String) (db : DB) (r : Row)
    (h : getEntryByDate d dev db = some r) :
    r ∈ db.rows ∧ r.date = d ∧ r.device_id = dev := by
  have h' : (db.rows.filter (rowMatches d dev)).head? = some r := h
  have hmem : r ∈ db.rows.filter (rowMatches d dev) :=
    List.mem_of_mem_head? (by simp [h'])
  obtain ⟨h1, h2⟩ := List.mem_filter.mp hmem
  exact ⟨h1, (rowMatches_iff d dev r).mp h2⟩

/-! ### The sort -/

theorem mem_insertDescBy {α : Type} (key : α → String) (x a : α) (l : List α) :
    a ∈ insertDescBy key x l ↔ a = x ∨ a ∈ l := by
  induction l with
  | nil => simp [insertDescBy]
  | cons y ys ih =>
    by_cases h : strLe (key y) (key x) = true
    · simp [insertDescBy, h]
    · simp [insertDescBy, h, ih]
      tauto

theorem mem_sortDescBy {α : Type} (key : α → String) (a : α) (l : List α) :
    a ∈ sortDescBy key l ↔ a ∈ l := by
  induction l with
  | nil => simp [sortDescBy]
  | cons x xs ih => simp [sortDescBy, mem_insertDescBy, ih]

theorem pairwise_insertDescBy {α : Type} (key : α → String) (x : α) (l : List α)
    (hl : l.Pairwise (fun a b => strLe (key b) (key a) = true)) :
    (insertDescBy key x l).Pairwise (fun a b => strLe (key b) (key a) = true) := by
  induction l with
  | nil => simp [insertDescBy]
  | cons y ys ih =>
    obtain ⟨hy, hys⟩ := List.pairwise_cons.mp hl
    by_cases h : strLe (key y) (key x) = true
    · rw [insertDescBy, if_pos h]
      refine List.pairwise_cons.mpr ⟨?_, hl⟩
      intro b hb
      rcases List.mem_cons.mp hb with rfl | hb'
      · exact h
      · exact strLe_trans _ _ _ (hy b hb') h
    · rw [insertDescBy, if_neg h]
      refine List.pairwise_cons.mpr ⟨?_, ih hys⟩
      intro b hb
      rcases (mem_insertDescBy key x b ys).mp hb with rfl | hb'
      · rcases strLe_total (key y) (key b) with h1 | h1
        · exact absurd h1 h
        · exact h1
      · exact hy b hb'

theorem pairwise_sortDescBy {α : Type} (key : α → String) (l : List α) :
    (sortDescBy key l).Pairwise (fun a b => strLe (key b) (key a) = true) := by
  induction l with
  | nil => simp [sortDescBy]
  | cons x xs ih => exact pairwise_insertDescBy key x _ ih

/-! ### Update, insert, upsert -/

theorem rowMatches_updateFun (d c dev d' dev' : String) (t : Nat) (r : Row) :
    rowMatches d' dev'
        (if rowMatches d dev r then { r with content := c, updated_at := t } else r) =
      rowMatches d' dev' r := by
  by_cases h : rowMatches d dev r = true
  · rw [if_pos h]
    simp [rowMatches]
  · rw [if_neg h]

theorem filter_map_update (d c dev : String) (t : Nat) (l : List Row) (p : Row → Bool)
    (hp : ∀ r, p (if rowMatches d dev r then { r with content := c, updated_at := t } else r) = p r)
    (hq : ∀ r, p r = true → rowMatches d dev r = false) :
    (l.map (fun r =>
        if rowMatches d dev r then { r with content := c, updated_at := t } else r)).filter p
      = l.filter p := by
  rw [List.filter_map]
  have hcong : l.filter
      (p ∘ fun r => if rowMatches d dev r then { r with content := c, updated_at := t } else r)
        = l.filter p :=
    List.filter_congr (fun r _ => hp r)
  rw [hcong]
  have h3 : ∀ r ∈ l.filter p,
      (fun r => if rowMatches d dev r then { r with content := c, updated_at := t } else r) r
        = id r := by
    intro r hr
    have hpr := (List.mem_filter.mp hr).2
    simp [hq r hpr]
  rw [List.map_congr_left h3, List.map_id]

theorem getEntryByDate_updateEntry_self (d c dev : String) (t : Nat) (db : DB) (e : Row)
    (h : getEntryByDate d dev db = some e) :
    getEntryByDate d dev (updateEntry d c dev t db).1 =
      some { e with content := c, updated_at := t } := by
  obtain ⟨hmem, hd, hdev⟩ := getEntryByDate_some_mem d dev db e h
  have he : rowMatches d dev e = true := (rowMatches_iff d dev e).mpr ⟨hd, hdev⟩
  have h' : (db.rows.filter (rowMatches d dev)).head? = some e := h
  simp only [updateEntry, getEntryByDate]
  rw [List.filter_map]
  have hcong : db.rows.filter
      ((rowMatches d dev) ∘ fun r =>
        if rowMatches d dev r then { r with content := c, updated_at := t } else r)
        = db.rows.filter (rowMatches d dev) :=
    List.filter_congr (fun r _ => rowMatches_updateFun d c dev d dev t r)
  rw [hcong, List.head?_map, h']
  simp [he]

theorem getEntryByDate_updateEntry_other (d c dev d' dev' : String) (t : Nat) (db : DB)
    (hkey : ¬(d' = d ∧ dev' = dev)) :
    getEntryByDate d' dev' (updateEntry d c dev t db).1 = getEntryByDate d' dev' db := by
  have hq : ∀ r, rowMatches d' dev' r = true → rowMatches d dev r = false := by
    intro r hr
    by_cases h2 : rowMatches d dev r = true
    · obtain ⟨hd2, hv2⟩ := (rowMatches_iff d dev r).mp h2
      obtain ⟨hd1, hv1⟩ := (rowMatches_iff d' dev' r).mp hr
      exact absurd ⟨hd1.symm.trans hd2, hv1.symm.trans hv2⟩ hkey
    · exact Bool.eq_false_iff.mpr h2
  simp only [updateEntry, getEntryByDate]
  rw [filter_map_update d c dev t db.rows (rowMatches d' dev')
    (fun r => rowMatches_updateFun d c dev d' dev' t r) hq]

theorem filter_rows_append (p : Row → Bool) (l : List Row) (r : Row) :
    (l ++ [r]).filter p = l.filter p ++ if p r then [r] else [] := by
  rw [List.filter_append]
  congr 1
  by_cases h : p r = true <;> simp [h]

theorem createEntry_of_none (d c dev : String) (t : Nat) (db : DB)
    (h : getEntryByDate d dev db = none) :
    createEntry d c dev t db =
      .ok (⟨db.rows ++ [⟨db.nextId, d, c, dev, t, t⟩], db.nextId + 1⟩,
        ⟨db.nextId, d, c, dev, t, t⟩) := by
  have ha := any_eq_false_of_getEntryByDate_none d dev db h
  simp [createEntry, ha]

theorem rowMatches_new (d c dev : String) (n t : Nat) :
    rowMatches d dev (⟨n, d, c, dev, t, t⟩ : Row) = true := by
  simp [rowMatches]

theorem upsertEntry_spec (d c dev : String) (t : Nat) (db : DB) :
    ∃ db', upsertEntry d c dev t db = .ok db' ∧
      ∃ r, getEntryByDate d dev db' = some r ∧
        r.date = d ∧ r.device_id = dev ∧ r.content = c := by
  cases hget : getEntryByDate d dev db with
  | some e =>
    obtain ⟨hmem, hd, hdev⟩ := getEntryByDate_some_mem d dev db e hget
    refine ⟨(updateEntry d c dev t db).1, by simp [upsertEntry, hget], ?_⟩
    refine ⟨{ e with content := c, updated_at := t },
      getEntryByDate_updateEntry_self d c dev t db e hget, ?_, ?_, ?_⟩ <;> simp [hd, hdev]
  | none =>
    refine ⟨⟨db.rows ++ [⟨db.nextId, d, c, dev, t, t⟩], db.nextId + 1⟩, ?_, ?_⟩
    · simp [upsertEntry, hget, createEntry_of_none d c dev t db hget, Except.map]
    · refine ⟨⟨db.nextId, d, c, dev, t, t⟩, ?_, rfl, rfl, rfl⟩
      have hnil : db.rows.filter (rowMatches d dev) = [] :=
        (getEntryByDate_eq_none_iff d dev db).mp hget
      show ((db.rows ++ [(⟨db.nextId, d, c, dev, t, t⟩ : Row)]).filter
        (rowMatches d dev)).head? = _
      rw [filter_rows_append, hnil, if_pos (by
        have := rowMatches_new d c dev db.nextId t
        exact this)]
      rfl

theorem getEntryByDate_upsertEntry_other (d c dev d' dev' : String) (t : Nat)
    (db db' : DB) (hkey : ¬(d' = d ∧ dev' = dev))
    (h : upsertEntry d c dev t db = .ok db') :
    getEntryByDate d' dev' db' = getEntryByDate d' dev' db := by
  cases hget : getEntryByDate d dev db with
  | some e =>
    rw [upsertEntry, hget] at h
    simp only [Except.ok.injEq] at h
    subst h
    exact getEntryByDate_updateEntry_other d c dev d' dev' t db hkey
  | none =>
    rw [upsertEntry, hget, createEntry_of_none d c dev t db hget] at h
    simp only [Except.map, Except.ok.injEq] at h
    subst h
    have hnew : rowMatches d' dev' (⟨db.nextId, d, c, dev, t, t⟩ : Row) = false := by
      by_cases hx : rowMatches d' dev' (⟨db.nextId, d, c, dev, t, t⟩ : Row) = true
      · obtain ⟨h1, h2⟩ := (rowMatches_iff d' dev' _).mp hx
        exact absurd ⟨h1.symm, h2.symm⟩ hkey
      · exact Bool.eq_false_iff.mpr hx
    show ((db.rows ++ [(⟨db.nextId, d, c, dev, t, t⟩ : Row)]).filter
      (rowMatches d' dev')).head? = _
    rw [filter_rows_append]
    simp [hnew, getEntryByDate]

theorem upsertEntry_all_fixed (d c dev : String) (t : Nat) (db db1 : DB)
    (h : upsertEntry d c dev t db = .ok db1) :
    ∀ r ∈ db1.rows, rowMatches d dev r = true → r.content = c ∧ r.updated_at = t := by
  cases hget : getEntryByDate d dev db with
  | some e =>
    rw [upsertEntry, hget] at h
    simp only [Except.ok.injEq] at h
    subst h
    intro r hr hm
    simp only [updateEntry] at hr
    obtain ⟨r0, hr0, rfl⟩ := List.mem_map.mp hr
    rw [rowMatches_updateFun d c dev d dev t r0] at hm
    simp [hm]
  | none =>
    rw [upsertEntry, hget, createEntry_of_none d c dev t db hget] at h
    simp only [Except.map, Except.ok.injEq] at h
    subst h
    intro r hr hm
    rcases List.mem_append.mp hr with hr1 | hr2
    · have := not_rowMatches_of_getEntryByDate_none d dev db hget r hr1
      rw [this] at hm
      exact absurd hm (by simp)
    · have hr' : r = ⟨db.nextId, d, c, dev, t, t⟩ := by simpa using hr2
      subst hr'
      exact ⟨rfl, rfl⟩

theorem updateEntry_of_fixed (d c dev : String) (t : Nat) (db : DB)
    (h : ∀ r ∈ db.rows, rowMatches d dev r = true → r.content = c ∧ r.updated_at = t) :
    (updateEntry d c dev t db).1 = db := by
  obtain ⟨rows, n⟩ := db
  simp only [updateEntry, DB.mk.injEq, and_true]
  have h3 : ∀ r ∈ rows,
      (fun r => if rowMatches d dev r then { r with content := c, updated_at := t } else r) r
        = id r := by
    intro r hr
    by_cases hm : rowMatches d dev r = true
    · obtain ⟨h1, h2⟩ := h r hr hm
      obtain ⟨i, dt, ct, dv, ca, ua⟩ := r
      simp only at h1 h2
      subst h1
      subst h2
      simp [hm]
    · simp [hm]
  rw [List.map_congr_left h3, List.map_id]

theorem upsertEntry_idem_sameTime (d c dev : String) (t : Nat) (db db1 : DB)
    (h : upsertEntry d c dev t db = .ok db1) :
    upsertEntry d c dev t db1 = .ok db1 := by
  obtain ⟨db', hok, r, hr, _, _, _⟩ := upsertEntry_spec d c dev t db
  rw [hok] at h
  simp only [Except.ok.injEq] at h
  subst h
  rw [upsertEntry, hr]
  simp only [Except.ok.injEq]
  exact updateEntry_of_fixed d c dev t _ (upsertEntry_all_fixed d c dev t db _ hok)

theorem stripUpdatedAt_updateEntry (d c dev : String) (t : Nat) (db : DB)
    (h : ∀ r ∈ db.rows, rowMatches d dev r = true → r.content = c) :
    stripUpdatedAt (updateEntry d c dev t db).1 = stripUpdatedAt db := by
  obtain ⟨rows, n⟩ := db
  simp only [stripUpdatedAt, updateEntry, List.map_map, DB.mk.injEq, and_true]
  apply List.map_congr_left
  intro r hr
  by_cases hm : rowMatches d dev r = true
  · have h1 := h r hr hm
    obtain ⟨i, dt, ct, dv, ca, ua⟩ := r
    simp only at h1
    subst h1
    simp [Function.comp, hm]
  · simp [Function.comp, hm]

theorem upsertEntry_idem_strip (d c dev : String) (t1 t2 : Nat) (db db1 db2 : DB)
    (h1 : upsertEntry d c dev t1 db = .ok db1)
    (h2 : upsertEntry d c dev t2 db1 = .ok db2) :
    stripUpdatedAt db2 = stripUpdatedAt db1 := by
  obtain ⟨db', hok, r, hr, _, _, _⟩ := upsertEntry_spec d c dev t1 db
  rw [hok] at h1
  simp only [Except.ok.injEq] at h1
  subst h1
  rw [upsertEntry, hr] at h2
  simp only [Except.ok.injEq] at h2
  subst h2
  exact stripUpdatedAt_updateEntry d c dev t2 db'
    (fun r hrr hm => (upsertEntry_all_fixed d c dev t1 db db' hok r hrr hm).1)

/-! ### Route-level lemmas -/

theorem patchEntryRoute_spec (d c dev : String) (t : Nat) (db : DB)
    (hd : dateRegexTest d = true) (hc : c ≠ "") :
    (patchEntryRoute d c dev t db).status = 200 ∧
      ∃ r, getEntryByDate d dev (patchEntryRoute d c dev t db).db = some r ∧
        r.date = d ∧ r.device_id = dev ∧ r.content = c := by
  obtain ⟨db', hok, r, hr⟩ := upsertEntry_spec d c dev t db
  have hcb : (c == "") = false := beq_eq_false_iff_ne.mpr hc
  constructor
  · simp [patchEntryRoute, hcb, hd, hok]
  · refine ⟨r, ?_⟩
    simpa [patchEntryRoute, hcb, hd, hok] using hr

theorem getEntryByDate_patchEntryRoute_other (d c dev d' dev' : String) (t : Nat) (db : DB)
    (hkey : ¬(d' = d ∧ dev' = dev)) :
    getEntryByDate d' dev' (patchEntryRoute d c dev t db).db =
      getEntryByDate d' dev' db := by
  by_cases hc : (c == "") = true
  · simp [patchEntryRoute, hc]
  · have hc' : (c == "") = false := Bool.eq_false_iff.mpr hc
    cases hd : dateRegexTest d with
    | false => simp [patchEntryRoute, hc', hd]
    | true =>
      cases hok : upsertEntry d c dev t db with
      | ok db1 =>
        have h2 := getEntryByDate_upsertEntry_other d c dev d' dev' t db db1 hkey hok
        simpa [patchEntryRoute, hc', hd, hok] using h2
      | error msg => simp [patchEntryRoute, hc', hd, hok]

/-! ### Read results stay inside the partition -/

theorem mem_getAllEntries_device (dev : String) (db : DB) (r : Row)
    (h : r ∈ getAllEntries dev db) : r.device_id = dev := by
  have h1 := (mem_sortDescBy Row.date r _).mp h
  have h2 := (List.mem_filter.mp h1).2
  simpa using h2

theorem mem_getEntriesInRange_device (s e dev : String) (db : DB) (r : Row)
    (h : r ∈ getEntriesInRange s e dev db) : r.device_id = dev := by
  have h1 := (mem_sortDescBy Row.date r _).mp h
  have h2 := (List.mem_filter.mp h1).2
  simp at h2
  exact h2.2

theorem getEntriesInRange_empty (s e dev : String) (db : DB)
    (h : strLe s e = false) : getEntriesInRange s e dev db = [] := by
  rw [getEntriesInRange]
  have hnil : db.rows.filter (fun r =>
      (strLe s r.date && strLe r.date e) && r.device_id == dev) = [] := by
    apply List.filter_eq_nil_iff.mpr
    intro r hr hcontra
    simp at hcontra
    have h3 := strLe_trans s r.date e hcontra.1.1 hcontra.1.2
    rw [h] at h3
    simp at h3
  rw [hnil]
  rfl

/-! ### Writes under one device leave other partitions unchanged -/

theorem entriesOf_updateEntry (d c dev dev' : String) (t : Nat) (db : DB)
    (hne : dev' ≠ dev) :
    entriesOf dev' (updateEntry d c dev t db).1 = entriesOf dev' db := by
  simp only [entriesOf, updateEntry]
  apply filter_map_update
  · intro r
    by_cases hm : rowMatches d dev r = true
    · rw [if_pos hm]
    · rw [if_neg hm]
  · intro r hr
    simp at hr
    by_cases hm : rowMatches d dev r = true
    · obtain ⟨_, h2⟩ := (rowMatches_iff d dev r).mp hm
      exact absurd (hr.symm.trans h2) hne
    · exact Bool.eq_false_iff.mpr hm

theorem entriesOf_append_new (d c dev dev' : String) (n t : Nat) (db : DB)
    (hne : dev' ≠ dev) :
    entriesOf dev' (⟨db.rows ++ [⟨n, d, c, dev, t, t⟩], n + 1⟩ : DB) = entriesOf dev' db := by
  simp only [entriesOf]
  rw [List.filter_append]
  have hone : ([(⟨n, d, c, dev, t, t⟩ : Row)].filter (fun r => r.device_id == dev')) = [] := by
    simp [Ne.symm hne]
  rw [hone, List.append_nil]

theorem entriesOf_deleteEntry (d dev dev' : String) (db : DB) (hne : dev' ≠ dev) :
    entriesOf dev' (deleteEntry d dev db).1 = entriesOf dev' db := by
  simp only [entriesOf, deleteEntry]
  rw [List.filter_filter]
  apply List.filter_congr
  intro r _
  by_cases hr : (r.device_id == dev') = true
  · have hdv : r.device_id = dev' := by simpa using hr
    have hm : rowMatches d dev r = false := by
      by_cases hm' : rowMatches d dev r = true
      · obtain ⟨_, h2⟩ := (rowMatches_iff d dev r).mp hm'
        exact absurd (hdv.symm.trans h2) hne
      · exact Bool.eq_false_iff.mpr hm'
    simp [hr, hm]
  · have hr' : (r.device_id == dev') = false := Bool.eq_false_iff.mpr hr
    simp [hr']

theorem entriesOf_createEntry (d c dev dev' : String) (t : Nat) (db db' : DB) (x : Row)
    (hne : dev' ≠ dev) (h : createEntry d c dev t db = .ok (db', x)) :
    entriesOf dev' db' = entriesOf dev' db := by
  by_cases ha : db.rows.any (rowMatches d dev) = true
  · simp [createEntry, ha] at h
  · have ha' : db.rows.any (rowMatches d dev) = false := Bool.eq_false_iff.mpr ha
    simp only [createEntry] at h
    rw [if_neg (by simp [ha'])] at h
    simp only [Except.ok.injEq, Prod.mk.injEq] at h
    obtain ⟨h1, _⟩ := h
    subst h1
    exact entriesOf_append_new d c dev dev' db.nextId t db hne

theorem entriesOf_upsertEntry (d c dev dev' : String) (t : Nat) (db db' : DB)
    (hne : dev' ≠ dev) (h : upsertEntry d c dev t db = .ok db') :
    entriesOf dev' db' = entriesOf dev' db := by
  cases hget : getEntryByDate d dev db with
  | some e =>
    rw [upsertEntry, hget] at h
    simp only [Except.ok.injEq] at h
    subst h
    exact entriesOf_updateEntry d c dev dev' t db hne
  | none =>
    rw [upsertEntry, hget, createEntry_of_none d c dev t db hget] at h
    simp only [Except.map, Except.ok.injEq] at h
    subst h
    exact entriesOf_append_new d c dev dev' db.nextId t db hne

/-! ### The reconciliation pass -/

theorem syncEntries_db_unchanged (l : List LocalEntry) (db : DB) :
    (syncEntries l db).1 = db := by
  induction l with
  | nil => rfl
  | cons e rest ih => simpa [syncEntries] using ih

theorem syncEntries_outcomes (l : List LocalEntry) (db : DB) :
    (syncEntries l db).2 = l.map (fun e => (e.date, false)) := by
  induction l with
  | nil => rfl
  | cons e rest ih => simp [syncEntries, ih]

/-! ### Claims -/

/-- C1: for every valid date and non-empty content in a given partition,
performing upsert(date, content) (the PATCH route) and then get(date)
returns an entry whose content equals the content that was upserted. -/
theorem upsert_then_get_round_trip (d c dev : String) (t : Nat) (db : DB)
    (hd : dateRegexTest d = true) (hc : c ≠ "") :
    (patchEntryRoute d c dev t db).status = 200 ∧
      (getEntryRoute d dev (patchEntryRoute d c dev t db).db).status = 200 ∧
      ∃ r, (getEntryRoute d dev (patchEntryRoute d c dev t db).db).body = some r ∧
        r.content = c := by
  obtain ⟨hst, r, hr, hrd, hrdev, hrc⟩ := patchEntryRoute_spec d c dev t db hd hc
  refine ⟨hst, ?_, r, ?_, hrc⟩ <;> simp [getEntryRoute, hd, hr]

theorem upsert_then_get_round_trip_witness :
    (dateRegexTest "2024-01-01" = true ∧ ("Hello" : String) ≠ "") ∧
      ((patchEntryRoute "2024-01-01" "Hello" "dev-1" 0 dbEmpty).status = 200 ∧
        (getEntryRoute "2024-01-01" "dev-1"
          (patchEntryRoute "2024-01-01" "Hello" "dev-1" 0 dbEmpty).db).status = 200 ∧
        ∃ r, (getEntryRoute "2024-01-01" "dev-1"
            (patchEntryRoute "2024-01-01" "Hello" "dev-1" 0 dbEmpty).db).body = some r ∧
          r.content = "Hello") :=
  ⟨⟨by decide, by decide⟩,
    upsert_then_get_round_trip "2024-01-01" "Hello" "dev-1" 0 dbEmpty (by decide) (by decide)⟩

/-- C2 (code bug): the cited `syncWithServer` enumerates every locally
cached dated entry and attempts `api.upsertEntry` on each, but its `api`
object defines no `upsertEntry` member, so every per-item attempt throws
a TypeError that the catch swallows: the pass records a failure for each
cached entry and leaves the store unchanged.  Concretely, replaying a
cache holding "Hello" for 2024-01-01 into an empty store still leaves
get(2024-01-01) at NotFound — the claimed eventual presence with
matching content never happens. -/
theorem sync_replay_never_reaches_store (storage : List (String × String)) (db : DB) :
    (syncWithServer storage db).1 = db ∧
      (syncWithServer storage db).2 =
        (getLocalEntries storage).map (fun e => (e.date, false)) ∧
      getEntryByDate "2024-01-01" "dev-1"
        (syncWithServer [("diary_2024-01-01", "Hello")] dbEmpty).1 = none :=
  ⟨syncEntries_db_unchanged (getLocalEntries storage) db,
    syncEntries_outcomes (getLocalEntries storage) db,
    by decide⟩

/-- C3: when no row exists for (date, partition), a first create succeeds
with 201; a second create for the same key fails with 409 Conflict, the
failed create modifies nothing, and the stored content remains the first
content. -/
theorem create_then_create_conflict (d c1 c2 dev : String) (t1 t2 : Nat) (db : DB)
    (hd : dateRegexTest d = true) (hc1 : c1 ≠ "") (hc2 : c2 ≠ "")
    (hnone : getEntryByDate d dev db = none) :
    (postEntryRoute d c1 dev t1 db).status = 201 ∧
      (postEntryRoute d c2 dev t2 (postEntryRoute d c1 dev t1 db).db).status = 409 ∧
      (postEntryRoute d c2 dev t2 (postEntryRoute d c1 dev t1 db).db).db =
        (postEntryRoute d c1 dev t1 db).db ∧
      ∃ r, getEntryByDate d dev
          (postEntryRoute d c2 dev t2 (postEntryRoute d c1 dev t1 db).db).db = some r ∧
        r.content = c1 := by
  have hde : (d == "") = false := beq_eq_false_iff_ne.mpr (dateRegexTest_ne_empty d hd)
  have hc1b : (c1 == "") = false := beq_eq_false_iff_ne.mpr hc1
  have hc2b : (c2 == "") = false := beq_eq_false_iff_ne.mpr hc2
  have hcreate := createEntry_of_none d c1 dev t1 db hnone
  have hpost1 : postEntryRoute d c1 dev t1 db =
      { status := 201, db := ⟨db.rows ++ [⟨db.nextId, d, c1, dev, t1, t1⟩], db.nextId + 1⟩,
        accesses := 2, body := some ⟨db.nextId, d, c1, dev, t1, t1⟩ } := by
    simp [postEntryRoute, hde, hc1b, hd, hnone, hcreate]
  have hsome1 : getEntryByDate d dev
      (⟨db.rows ++ [⟨db.nextId, d, c1, dev, t1, t1⟩], db.nextId + 1⟩ : DB) =
      some ⟨db.nextId, d, c1, dev, t1, t1⟩ := by
    have hnil : db.rows.filter (rowMatches d dev) = [] :=
      (getEntryByDate_eq_none_iff d dev db).mp hnone
    show ((db.rows ++ [(⟨db.nextId, d, c1, dev, t1, t1⟩ : Row)]).filter
      (rowMatches d dev)).head? = _
    rw [filter_rows_append, hnil, if_pos (rowMatches_new d c1 dev db.nextId t1)]
    rfl
  refine ⟨by rw [hpost1], ?_, ?_, ?_⟩
  · rw [hpost1]
    simp [postEntryRoute, hde, hc2b, hd, hsome1]
  · rw [hpost1]
    simp [postEntryRoute, hde, hc2b, hd, hsome1]
  · refine ⟨⟨db.nextId, d, c1, dev, t1, t1⟩, ?_, rfl⟩
    rw [hpost1]
    simp [postEntryRoute, hde, hc2b, hd, hsome1]

theorem create_then_create_conflict_witness :
    (dateRegexTest "2024-01-01" = true ∧ ("A" : String) ≠ "" ∧ ("B" : String) ≠ "" ∧
        getEntryByDate "2024-01-01" "dev-1" dbEmpty = none) ∧
      (postEntryRoute "2024-01-01" "A" "dev-1" 0 dbEmpty).status = 201 ∧
      (postEntryRoute "2024-01-01" "B" "dev-1" 1
        (postEntryRoute "2024-01-01" "A" "dev-1" 0 dbEmpty).db).status = 409 ∧
      (postEntryRoute "2024-01-01" "B" "dev-1" 1
          (postEntryRoute "2024-01-01" "A" "dev-1" 0 dbEmpty).db).db =
        (postEntryRoute "2024-01-01" "A" "dev-1" 0 dbEmpty).db ∧
      ∃ r, getEntryByDate "2024-01-01" "dev-1"
          (postEntryRoute "2024-01-01" "B" "dev-1" 1
            (postEntryRoute "2024-01-01" "A" "dev-1" 0 dbEmpty).db).db = some r ∧
        r.content = "A" :=
  ⟨⟨by decide, by decide, by decide, by decide⟩,
    create_then_create_conflict "2024-01-01" "A" "B" "dev-1" 0 1 dbEmpty
      (by decide) (by decide) (by decide) (by decide)⟩

/-- C4 counterexample: "2024-13-40" is not a calendar date, yet it matches
the routes' regex, so it is not rejected: a GET for it reaches the store
(one SQL access, outcome 404 rather than a ValidationError) and a PATCH
for it stores a row. -/
theorem shapelike_invalid_calendar_date_reaches_store :
    dateRegexTest "2024-13-40" = true ∧
      (getEntryRoute "2024-13-40" "dev-1" dbEmpty).status = 404 ∧
      (getEntryRoute "2024-13-40" "dev-1" dbEmpty).accesses = 1 ∧
      (patchEntryRoute "2024-13-40" "note" "dev-1" 7 dbEmpty).status = 200 ∧
      (patchEntryRoute "2024-13-40" "note" "dev-1" 7 dbEmpty).db.rows =
        [⟨1, "2024-13-40", "note", "dev-1", 7, 7⟩] := by
  decide

/-- C4 (amended): a date string that fails the `\d{4}-\d{2}-\d{2}` shape
check is rejected with a 400 ValidationError by every entry operation
before any store access (zero SQL statements, store unchanged).  The
check is a shape check only: a shape-conforming non-calendar string such
as "2024-13-40" passes it and reaches the persistence layer. -/
theorem malformed_date_rejected_before_store (d d2 c dev : String) (t : Nat) (db : DB)
    (h : dateRegexTest d = false) :
    getEntryRoute d dev db = { status := 400, db := db, accesses := 0 } ∧
      postEntryRoute d c dev t db = { status := 400, db := db, accesses := 0 } ∧
      putEntryRoute d c dev t db = { status := 400, db := db, accesses := 0 } ∧
      patchEntryRoute d c dev t db = { status := 400, db := db, accesses := 0 } ∧
      deleteEntryRoute d dev db = { status := 400, db := db, accesses := 0 } ∧
      rangeEntriesRoute d d2 dev db = { status := 400, db := db, accesses := 0 } ∧
      rangeEntriesRoute d2 d dev db = { status := 400, db := db, accesses := 0 } ∧
      dateRegexTest "2024-13-40" = true := by
  refine ⟨?_, ?_, ?_, ?_, ?_, ?_, ?_, by decide⟩
  · simp [getEntryRoute, h]
  · by_cases hde : (d == "") = true
    · simp [postEntryRoute, hde]
    · by_cases hc : (c == "") = true
      · simp [postEntryRoute, hc]
      · simp [postEntryRoute, Bool.eq_false_iff.mpr hde, Bool.eq_false_iff.mpr hc, h]
  · by_cases hc : (c == "") = true
    · simp [putEntryRoute, hc]
    · simp [putEntryRoute, Bool.eq_false_iff.mpr hc, h]
  · by_cases hc : (c == "") = true
    · simp [patchEntryRoute, hc]
    · simp [patchEntryRoute, Bool.eq_false_iff.mpr hc, h]
  · simp [deleteEntryRoute, h]
  · simp [rangeEntriesRoute, h]
  · simp [rangeEntriesRoute, h]

theorem malformed_date_rejected_before_store_witness :
    dateRegexTest "2024-1-1" = false ∧
      getEntryRoute "2024-1-1" "dev-1" dbEmpty =
        { status := 400, db := dbEmpty, accesses := 0 } ∧
      patchEntryRoute "2024-1-1" "note" "dev-1" 0 dbEmpty =
        { status := 400, db := dbEmpty, accesses := 0 } :=
  ⟨by decide,
    (malformed_date_rejected_before_store "2024-1-1" "2024-01-01" "note" "dev-1" 0 dbEmpty
      (by decide)).1,
    (malformed_date_rejected_before_store "2024-1-1" "2024-01-01" "note" "dev-1" 0 dbEmpty
      (by decide)).2.2.2.1⟩

/-- C5 counterexample: a range query with valid-format dates whose start
is after its end succeeds with 200 instead of failing with a Validation
error. -/
theorem range_start_after_end_succeeds :
    dateRegexTest "2024-02-01" = true ∧ dateRegexTest "2024-01-01" = true ∧
      strLe "2024-02-01" "2024-01-01" = false ∧
      (rangeEntriesRoute "2024-02-01" "2024-01-01" "dev-1" dbEmpty).status = 200 ∧
      (rangeEntriesRoute "2024-02-01" "2024-01-01" "dev-1" dbEmpty).accesses = 1 := by
  decide

/-- C5 (amended): a range query whose start is after its end (in the
store's string order on dates) is not rejected: it succeeds with 200 and
an empty result list, leaving the store unchanged. -/
theorem range_start_after_end_returns_empty (s e dev : String) (db : DB)
    (hs : dateRegexTest s = true) (he : dateRegexTest e = true)
    (hgt : strLe s e = false) :
    rangeEntriesRoute s e dev db =
      { status := 200, db := db, accesses := 1, items := [] } := by
  simp [rangeEntriesRoute, hs, he, getEntriesInRange_empty s e dev db hgt]

theorem range_start_after_end_returns_empty_witness :
    (dateRegexTest "2024-02-01" = true ∧ dateRegexTest "2024-01-01" = true ∧
        strLe "2024-02-01" "2024-01-01" = false) ∧
      rangeEntriesRoute "2024-02-01" "2024-01-01" "dev-1" dbEmpty =
        { status := 200, db := dbEmpty, accesses := 1, items := [] } :=
  ⟨⟨by decide, by decide, by decide⟩,
    range_start_after_end_returns_empty "2024-02-01" "2024-01-01" "dev-1" dbEmpty
      (by decide) (by decide) (by decide)⟩

/-- C6: a GET for a valid-format date on a partition with no row for that
date returns exactly the 404 NotFound outcome: one store read, store
unchanged, and no other error outcome. -/
theorem get_on_empty_partition_not_found (d dev : String) (db : DB)
    (hd : dateRegexTest d = true) (hnone : getEntryByDate d dev db = none) :
    getEntryRoute d dev db = { status := 404, db := db, accesses := 1 } := by
  simp [getEntryRoute, hd, hnone]

theorem get_on_empty_partition_not_found_witness :
    (dateRegexTest "2024-01-01" = true ∧
        getEntryByDate "2024-01-01" "dev-1" dbEmpty = none) ∧
      getEntryRoute "2024-01-01" "dev-1" dbEmpty =
        { status := 404, db := dbEmpty, accesses := 1 } :=
  ⟨⟨by decide, by decide⟩,
    get_on_empty_partition_not_found "2024-01-01" "dev-1" dbEmpty (by decide) (by decide)⟩

/-- C7: the result lists of list and of rangeQuery are ordered by date
descending: every entry's date is greater than or equal to the date of
every entry after it. -/
theorem list_and_range_ordered_desc (dev s e : String) (db : DB) :
    (getAllEntries dev db).Pairwise (fun a b => strLe b.date a.date = true) ∧
      (getEntriesInRange s e dev db).Pairwise (fun a b => strLe b.date a.date = true) :=
  ⟨pairwise_sortDescBy Row.date _, pairwise_sortDescBy Row.date _⟩

/-- C8: upsert updates the row when one exists for the key and inserts it
otherwise, and it is idempotent: repeating the same upsert leaves the
store in the same state — exactly when the repeat carries the same
timestamp, and up to the `updated_at` column for any timestamps. -/
theorem upsert_update_or_insert_and_idempotent (d c dev : String) (t t2 : Nat) (db : DB) :
    (∀ e, getEntryByDate d dev db = some e →
        upsertEntry d c dev t db = .ok (updateEntry d c dev t db).1) ∧
      (getEntryByDate d dev db = none →
        upsertEntry d c dev t db =
          .ok ⟨db.rows ++ [⟨db.nextId, d, c, dev, t, t⟩], db.nextId + 1⟩) ∧
      (∀ db1, upsertEntry d c dev t db = .ok db1 →
        upsertEntry d c dev t db1 = .ok db1) ∧
      (∀ db1 db2, upsertEntry d c dev t db = .ok db1 →
        upsertEntry d c dev t2 db1 = .ok db2 →
        stripUpdatedAt db2 = stripUpdatedAt db1) := by
  refine ⟨?_, ?_, ?_, ?_⟩
  · intro e he
    simp [upsertEntry, he]
  · intro hnone
    simp [upsertEntry, hnone, createEntry_of_none d c dev t db hnone, Except.map]
  · exact fun db1 h => upsertEntry_idem_sameTime d c dev t db db1 h
  · exact fun db1 db2 h1 h2 => upsertEntry_idem_strip d c dev t t2 db db1 db2 h1 h2

theorem upsert_update_or_insert_and_idempotent_witness :
    getEntryByDate "2024-01-01" "dev-1" dbEmpty = none ∧
      upsertEntry "2024-01-01" "Hi" "dev-1" 3 dbEmpty =
        .ok ⟨[⟨1, "2024-01-01", "Hi", "dev-1", 3, 3⟩], 2⟩ :=
  ⟨by decide,
    (upsert_update_or_insert_and_idempotent "2024-01-01" "Hi" "dev-1" 3 4 dbEmpty).2.1
      (by decide)⟩

/-- C9: partition isolation: reads under device `dev` only return rows
whose device id is `dev`, and create, replace (update), upsert, and
delete under `dev` leave every other device's set of rows unchanged. -/
theorem partition_isolation (d c s e dev dev' : String) (t : Nat) (db : DB)
    (hne : dev' ≠ dev) :
    (∀ r ∈ getAllEntries dev db, r.device_id = dev) ∧
      (∀ r, getEntryByDate d dev db = some r → r.device_id = dev) ∧
      (∀ r ∈ getEntriesInRange s e dev db, r.device_id = dev) ∧
      (∀ db' x, createEntry d c dev t db = .ok (db', x) →
        entriesOf dev' db' = entriesOf dev' db) ∧
      (entriesOf dev' (updateEntry d c dev t db).1 = entriesOf dev' db) ∧
      (∀ db', upsertEntry d c dev t db = .ok db' →
        entriesOf dev' db' = entriesOf dev' db) ∧
      (entriesOf dev' (deleteEntry d dev db).1 = entriesOf dev' db) := by
  refine ⟨?_, ?_, ?_, ?_, ?_, ?_, ?_⟩
  · exact fun r hr => mem_getAllEntries_device dev db r hr
  · exact fun r hr => (getEntryByDate_some_mem d dev db r hr).2.2
  · exact fun r hr => mem_getEntriesInRange_device s e dev db r hr
  · exact fun db' x h => entriesOf_createEntry d c dev dev' t db db' x hne h
  · exact entriesOf_updateEntry d c dev dev' t db hne
  · exact fun db' h => entriesOf_upsertEntry d c dev dev' t db db' hne h
  · exact entriesOf_deleteEntry d dev dev' db hne

theorem partition_isolation_witness :
    ("dev-2" : String) ≠ "dev-1" ∧
      entriesOf "dev-2"
          (updateEntry "2024-01-01" "c" "dev-1" 0
            ⟨[⟨1, "2024-01-01", "w", "dev-2", 0, 0⟩], 2⟩).1 =
        entriesOf "dev-2" ⟨[⟨1, "2024-01-01", "w", "dev-2", 0, 0⟩], 2⟩ :=
  ⟨by decide,
    (partition_isolation "2024-01-01" "c" "2024-01-01" "2024-01-02" "dev-1" "dev-2" 0
      ⟨[⟨1, "2024-01-01", "w", "dev-2", 0, 0⟩], 2⟩ (by decide)).2.2.2.2.1⟩

/-- C10: a device identity that is present (a non-empty header value, or
a non-empty query value with the header absent or empty) but fails the
UUID shape check is rejected with 400 before any entry operation runs:
zero store accesses, store unchanged, and no fresh identity minted;
minting happens exactly when both carriers are absent or empty. -/
theorem present_invalid_device_id_rejected_no_mint
    (headerId queryId : Option String) (fresh s : String) (op : EntryOp)
    (t : Nat) (db : DB)
    (hpresent : headerId = some s ∨ (jsTruthy headerId = false ∧ queryId = some s))
    (hs : s ≠ "") (hbad : uuidRegexTest s = false) :
    (handleRequest headerId queryId fresh op t db).2.status = 400 ∧
      (handleRequest headerId queryId fresh op t db).2.db = db ∧
      (handleRequest headerId queryId fresh op t db).2.accesses = 0 ∧
      (handleRequest headerId queryId fresh op t db).1.minted = false ∧
      ∀ h q f, ((deviceIdMiddleware h q f).minted = true ↔
        (jsTruthy h = false ∧ jsTruthy q = false)) := by
  have hst : jsTruthy (some s) = true := by simp [jsTruthy, hs]
  have hmw : deviceIdMiddleware headerId queryId fresh = ⟨s, false⟩ := by
    rcases hpresent with rfl | ⟨hh, rfl⟩
    · simp [deviceIdMiddleware, hst]
    · simp [deviceIdMiddleware, hh, hst]
  refine ⟨?_, ?_, ?_, ?_, ?_⟩
  · simp [handleRequest, hmw, hbad]
  · simp [handleRequest, hmw, hbad]
  · simp [handleRequest, hmw, hbad]
  · simp [handleRequest, hmw, hbad]
  · intro h q f
    constructor
    · intro hm
      by_cases hh : jsTruthy h = true
      · simp [deviceIdMiddleware, hh] at hm
      · by_cases hq : jsTruthy q = true
        · simp [deviceIdMiddleware, Bool.eq_false_iff.mpr hh, hq] at hm
        · exact ⟨Bool.eq_false_iff.mpr hh, Bool.eq_false_iff.mpr hq⟩
    · intro hpair
      simp [deviceIdMiddleware, hpair.1, hpair.2]

theorem present_invalid_device_id_rejected_no_mint_witness :
    (uuidRegexTest "not-a-uuid" = false ∧ ("not-a-uuid" : String) ≠ "") ∧
      (handleRequest (some "not-a-uuid") none "aaaaaaaa-aaaa-4aaa-8aaa-aaaaaaaaaaaa"
          (.getByDate "2024-01-01") 0 dbEmpty).2.status = 400 ∧
      (handleRequest (some "not-a-uuid") none "aaaaaaaa-aaaa-4aaa-8aaa-aaaaaaaaaaaa"
          (.getByDate "2024-01-01") 0 dbEmpty).1.minted = false :=
  ⟨⟨by decide, by decide⟩,
    (present_invalid_device_id_rejected_no_mint (some "not-a-uuid") none
      "aaaaaaaa-aaaa-4aaa-8aaa-aaaaaaaaaaaa" "not-a-uuid" (.getByDate "2024-01-01") 0 dbEmpty
      (Or.inl rfl) (by decide) (by decide)).1,
    (present_invalid_device_id_rejected_no_mint (some "not-a-uuid") none
      "aaaaaaaa-aaaa-4aaa-8aaa-aaaaaaaaaaaa" "not-a-uuid" (.getByDate "2024-01-01") 0 dbEmpty
      (Or.inl rfl) (by decide) (by decide)).2.2.2.1⟩

end PandaDiary
